import Mathlib

/-!
Shallow embedding of `camera_base/camera_ros_base.h` (the `camera_base`
ROS package): the `CameraRosBase` publish-with-diagnostic cycle.

Doubles and ROS time stamps are modelled as rationals; the subclass `Grab`
hook is a function argument; the observable side effects of a frame round
(the hook call, the publication, the diagnostic tick, the updater poll)
are collected into an event trace.
-/

namespace CameraBase

/-- A ROS time stamp, modelled as a rational number of seconds. -/
abbrev Time := ℚ

/-- `std_msgs::Header` restricted to the fields the code touches. -/
structure Header where
  frame_id : String
  stamp : Time
deriving DecidableEq, Repr

/-- `sensor_msgs::Image`. -/
structure Image where
  header : Header
  height : Nat
  width : Nat
  encoding : String
  is_bigendian : Bool
  step : Nat
  data : List Nat
deriving DecidableEq, Repr

/-- A default-constructed `sensor_msgs::Image`, as produced by
`boost::make_shared<sensor_msgs::Image>()`. -/
def Image.fresh : Image :=
  { header := ⟨"", 0⟩, height := 0, width := 0, encoding := "",
    is_bigendian := false, step := 0, data := [] }

/-- `sensor_msgs::CameraInfo`. -/
structure CameraInfo where
  header : Header
  height : Nat
  width : Nat
  distortion_model : String
  D : List ℚ
  K : List ℚ
  R : List ℚ
  P : List ℚ
deriving DecidableEq, Repr

/-- `camera_info_manager::CameraInfoManager`: the calibration source, holding
the camera name, the calibration URL and the currently loaded calibration. -/
structure CameraInfoManager where
  camera_name : String
  calib_url : String
  cinfo : CameraInfo
deriving DecidableEq, Repr

/-- `CameraInfoManager::getCameraInfo`: serve a copy of the current
calibration. -/
def CameraInfoManager.getCameraInfo (m : CameraInfoManager) : CameraInfo :=
  m.cinfo

/-- `diagnostic_updater::Updater`: a hardware id plus a registry of
diagnostic tasks, recorded by name in registration order. -/
structure Updater where
  hardware_id : String
  tasks : List String
deriving DecidableEq, Repr

/-- `Updater::removeByName`: remove the first registered task with the given
name, if any. -/
def Updater.removeByName (u : Updater) (name : String) : Updater :=
  { u with tasks := u.tasks.erase name }

/-- Registration of a task into the updater, as performed as a side effect of
constructing a `diagnostic_updater::TopicDiagnostic` against it; the task it
registers is named `name ++ " topic status"`. -/
def Updater.add (u : Updater) (name : String) : Updater :=
  { u with tasks := u.tasks ++ [name] }

/-- `Updater::setHardwareID`. -/
def Updater.setHardwareID (u : Updater) (id : String) : Updater :=
  { u with hardware_id := id }

/-- `diagnostic_updater::TopicDiagnostic` as held by `topic_diagnostic_`:
the topic name plus the window and delay band.  The frequency band
(`min_fps_`, `max_fps_`) is aliased by pointer from the owning
`CameraRosBase`, so it is not stored here. -/
structure TopicDiagnostic where
  name : String
  window_size : ℚ
  min_delay : ℚ
  max_delay : ℚ
deriving DecidableEq, Repr

/-- The state of a `CameraRosBase` object (fields in declaration order;
the node handles are represented by the camera namespace string `ns`,
and the publisher endpoint carries no modelled state). -/
structure CameraRosBase where
  ns : String
  cinfo_mgr : CameraInfoManager
  fps : ℚ
  min_fps : ℚ
  max_fps : ℚ
  diagnostic_updater : Updater
  topic_diagnostic : Option TopicDiagnostic
  frame_id : String
  identifier : String
deriving DecidableEq, Repr

/-- `CameraRosBase::SetTopicDiagnosticParameters`: store the band, derive the
topic name from the camera namespace, remove the previous registration named
`name ++ " topic status"` from the updater, then construct a fresh
`TopicDiagnostic` (which registers itself under that same name). -/
def SetTopicDiagnosticParameters (s : CameraRosBase)
    (minFreq maxFreq windowSize minDelay maxDelay : ℚ) : CameraRosBase :=
  let pfx := s.ns
  let name := if pfx = "" then "image_raw" else pfx ++ "/image_raw"
  let u1 := s.diagnostic_updater.removeByName (name ++ " topic status")
  { s with
    min_fps := minFreq,
    max_fps := maxFreq,
    diagnostic_updater := u1.add (name ++ " topic status"),
    topic_diagnostic := some ⟨name, windowSize, minDelay, maxDelay⟩ }

/-- The namespaced key/value configuration store behind the node handle. -/
structure ParamStore where
  lookup : String → Option String

/-- `camera_base::getParam<std::string>`: value-initialise, try the store,
log an error on a missing key, and return the (possibly still empty) value.
The second component is the list of error messages logged. -/
def getParam (store : ParamStore) (name : String) : String × List String :=
  match store.lookup name with
  | some v => (v, [])
  | none => ("", ["Cannot find parameter: " ++ name])

/-- `ros::NodeHandle::param<std::string>`: look up a key, falling back to a
default value. -/
def paramWithDefault (store : ParamStore) (name dflt : String) : String :=
  (store.lookup name).getD dflt

/-- The `CameraRosBase` constructor.  `store` is the camera-scoped parameter
store, `ns` the camera scope's namespace string (`cnh_.getNamespace()`), and
`loadedInfo` the calibration the info manager loaded from the URL.  Member
initialisation reads `camera_name` and `calib_url` via `getParam`, sets
`fps_ = 10.0`, then the body calls `SetTopicDiagnosticParameters` with the
default band and reads `frame_id` and `identifier`.  Returns the constructed
state together with the error log. -/
def mkCameraRosBase (store : ParamStore) (ns : String)
    (loadedInfo : CameraInfo) : CameraRosBase × List String :=
  let cam := getParam store "camera_name"
  let url := getParam store "calib_url"
  let s0 : CameraRosBase :=
    { ns := ns
      cinfo_mgr := ⟨cam.1, url.1, loadedInfo⟩
      fps := 10
      min_fps := 0
      max_fps := 0
      diagnostic_updater := ⟨"none", []⟩
      topic_diagnostic := none
      frame_id := ""
      identifier := "" }
  let s1 := SetTopicDiagnosticParameters s0 (s0.fps * (9/10)) (s0.fps * (11/10))
      10 (-(1/100)) (1/10)
  let s2 := { s1 with
    frame_id := paramWithDefault store "frame_id" ns,
    identifier := paramWithDefault store "identifier" "" }
  (s2, cam.2 ++ url.2)

/-- `CameraRosBase::set_fps`. -/
def set_fps (s : CameraRosBase) (fps : ℚ) : CameraRosBase :=
  { s with fps := fps }

/-- `CameraRosBase::SetHardwareId`. -/
def SetHardwareId (s : CameraRosBase) (id : String) : CameraRosBase :=
  { s with diagnostic_updater := s.diagnostic_updater.setHardwareID id }

/-- An observable side effect of a frame round: the `Grab` hook invocation
with the messages passed to it, an emission of an (image, calibration) pair
on the camera topic, a diagnostic tick, or an updater poll. -/
inductive Event where
  | grabCall (image : Image) (cinfo : CameraInfo)
  | publish (image : Image) (cinfo : CameraInfo)
  | tick (stamp : Time)
  | update
deriving DecidableEq, Repr

/-- The subclass `Grab` hook: receives the pre-stamped image buffer and the
calibration snapshot (both passed by shared pointer, so mutations are
visible to the caller), and returns the mutated messages together with the
success flag. -/
abbrev GrabHook := Image → CameraInfo → Image × CameraInfo × Bool

/-- `CameraRosBase::PublishCamera`: allocate a fresh image, snapshot the
calibration, pre-stamp the image header, invoke `Grab`; on success copy the
image header onto the calibration header, publish the pair and tick the
diagnostic with the image stamp; always poll the updater last. -/
def PublishCamera (s : CameraRosBase) (grab : GrabHook) (time : Time) :
    List Event :=
  let image_msg : Image := { Image.fresh with header := ⟨s.frame_id, time⟩ }
  let cinfo_msg : CameraInfo := s.cinfo_mgr.getCameraInfo
  let r := grab image_msg cinfo_msg
  Event.grabCall image_msg cinfo_msg ::
    (if r.2.2 then
      [Event.publish r.1 { r.2.1 with header := r.1.header },
       Event.tick r.1.header.stamp,
       Event.update]
    else
      [Event.update])

/-- `CameraRosBase::Publish`: snapshot the calibration, force the caller
image's `frame_id` to the stored one (mutating the caller's message through
the shared pointer), copy the image header onto the calibration, publish the
pair, tick with the image stamp, poll the updater.  Returns the mutated
caller image together with the event trace. -/
def Publish (s : CameraRosBase) (image_msg : Image) : Image × List Event :=
  let cinfo_msg : CameraInfo := s.cinfo_mgr.getCameraInfo
  let image : Image :=
    { image_msg with header := { image_msg.header with frame_id := s.frame_id } }
  let cinfo : CameraInfo := { cinfo_msg with header := image.header }
  (image, [Event.publish image cinfo,
           Event.tick image.header.stamp,
           Event.update])

/-- Predicate picking out emissions on the camera topic. -/
def isPublish : Event → Bool
  | .publish _ _ => true
  | _ => false

/-- Predicate picking out diagnostic ticks. -/
def isTick : Event → Bool
  | .tick _ => true
  | _ => false

/-- Predicate picking out updater polls. -/
def isUpdate : Event → Bool
  | .update => true
  | _ => false

/-- The diagnostic-task name derived inside `SetTopicDiagnosticParameters`:
`"image_raw"` at root scope, `"<namespace>/image_raw"` otherwise, suffixed
with `" topic status"`. -/
def derivedRegName (ns : String) : String :=
  (if ns = "" then "image_raw" else ns ++ "/image_raw") ++ " topic status"

/-- A concrete calibration, for witnesses. -/
def sampleInfo : CameraInfo :=
  ⟨⟨"", 0⟩, 480, 640, "plumb_bob", [], [], [], []⟩

/-- A concrete camera state, for witnesses. -/
def sampleState : CameraRosBase :=
  { ns := ""
    cinfo_mgr := ⟨"cam", "file://calib.yaml", sampleInfo⟩
    fps := 10
    min_fps := 9
    max_fps := 11
    diagnostic_updater := ⟨"none", ["image_raw topic status"]⟩
    topic_diagnostic := some ⟨"image_raw", 10, -(1/100), 1/10⟩
    frame_id := "cam_frame"
    identifier := "" }

/-- C1: every `(Image, CalibrationInfo)` pair emitted on the camera topic,
whether by `PublishCamera` (for any `Grab` hook, including one that rewrote
the image header) or by `Publish`, carries an identical header. -/
theorem camera_pair_headers_identical (s : CameraRosBase) (g : GrabHook)
    (t : Time) (m : Image) (img : Image) (ci : CameraInfo)
    (h : Event.publish img ci ∈ PublishCamera s g t ∨
         Event.publish img ci ∈ (Publish s m).2) :
    ci.header = img.header := by
  rcases h with h | h
  · simp only [PublishCamera, List.mem_cons] at h
    rcases h with h | h
    · exact absurd h (by simp)
    · split at h <;> simp_all
  · simp only [Publish, List.mem_cons] at h
    rcases h with h | h | h | h <;> simp_all

/-- C1 witness: with a hook that rewrites both the frame id and the stamp,
the emitted pair still shares one header. -/
theorem camera_pair_headers_identical_witness :
    (Event.publish
        { Image.fresh with header := ⟨"sensor_optical", 102⟩ }
        { sampleInfo with header := ⟨"sensor_optical", 102⟩ } ∈
      PublishCamera sampleState
        (fun i c => ({ i with header := ⟨"sensor_optical", 102⟩ }, c, true)) 100 ∨
      Event.publish
        { Image.fresh with header := ⟨"sensor_optical", 102⟩ }
        { sampleInfo with header := ⟨"sensor_optical", 102⟩ } ∈
      (Publish sampleState Image.fresh).2) ∧
    ({ sampleInfo with header := ⟨"sensor_optical", 102⟩ } : CameraInfo).header =
      ({ Image.fresh with header := ⟨"sensor_optical", 102⟩ } : Image).header := by
  refine ⟨Or.inl (by decide), ?_⟩
  exact camera_pair_headers_identical sampleState
    (fun i c => ({ i with header := ⟨"sensor_optical", 102⟩ }, c, true)) 100
    Image.fresh _ _ (Or.inl (by decide))

/-- C3: every call to `PublishCamera` polls the updater exactly once,
whatever the hook returned, and the poll is the last event of the frame, so
it comes strictly after the publication and the tick when those occur. -/
theorem publishCamera_updater_polled_once_last (s : CameraRosBase)
    (g : GrabHook) (t : Time) :
    List.countP isUpdate (PublishCamera s g t) = 1 ∧
    (PublishCamera s g t).getLast? = some Event.update := by
  simp only [PublishCamera]
  split <;> simp [isUpdate, List.countP_cons, List.countP_nil]

/-- C5: `Publish` on a caller-populated image clones the current
calibration, forces the image frame id to the stored one, copies the image
header onto the calibration, publishes the pair once, ticks once with the
image timestamp and polls the updater once. -/
theorem publish_fast_path_effects (s : CameraRosBase) (m : Image) :
    List.countP isPublish (Publish s m).2 = 1 ∧
    List.countP isTick (Publish s m).2 = 1 ∧
    List.countP isUpdate (Publish s m).2 = 1 ∧
    (Publish s m).1 = { m with header := { m.header with frame_id := s.frame_id } } ∧
    Event.publish (Publish s m).1
      { s.cinfo_mgr.getCameraInfo with header := (Publish s m).1.header } ∈
      (Publish s m).2 ∧
    Event.tick m.header.stamp ∈ (Publish s m).2 := by
  simp [Publish, isPublish, isTick, isUpdate, List.countP_cons, List.countP_nil]

/-- C6: before the `Grab` hook runs, `PublishCamera` hands it a freshly
allocated (default-constructed) image whose header was pre-stamped with the
stored frame id and the acquisition time, together with a calibration copied
from the calibration source. -/
theorem publishCamera_grab_inputs (s : CameraRosBase) (g : GrabHook)
    (t : Time) :
    ∃ rest img ci,
      PublishCamera s g t = Event.grabCall img ci :: rest ∧
      img.header.frame_id = s.frame_id ∧
      img.header.stamp = t ∧
      img.height = 0 ∧ img.width = 0 ∧ img.encoding = "" ∧
      img.is_bigendian = false ∧ img.step = 0 ∧ img.data = [] ∧
      ci = s.cinfo_mgr.getCameraInfo := by
  exact ⟨_, _, _, rfl, rfl, rfl, rfl, rfl, rfl, rfl, rfl, rfl, rfl⟩

/-- C8: `set_fps` replaces only the stored fps; every other observable field
of the cycle object, including the installed diagnostic and the updater
registry, is unchanged. -/
theorem set_fps_changes_only_fps (s : CameraRosBase) (f : ℚ) :
    (set_fps s f).fps = f ∧
    (set_fps s f).ns = s.ns ∧
    (set_fps s f).cinfo_mgr = s.cinfo_mgr ∧
    (set_fps s f).min_fps = s.min_fps ∧
    (set_fps s f).max_fps = s.max_fps ∧
    (set_fps s f).diagnostic_updater = s.diagnostic_updater ∧
    (set_fps s f).topic_diagnostic = s.topic_diagnostic ∧
    (set_fps s f).frame_id = s.frame_id ∧
    (set_fps s f).identifier = s.identifier :=
  ⟨rfl, rfl, rfl, rfl, rfl, rfl, rfl, rfl, rfl⟩

/-- C10: `Publish` mutates the caller image in place: afterwards its frame
id equals the configured one, while its stamp, dimensions, encoding,
endianness, step and pixel bytes are unchanged. -/
theorem publish_mutates_only_frame_id (s : CameraRosBase) (m : Image) :
    (Publish s m).1.header.frame_id = s.frame_id ∧
    (Publish s m).1.header.stamp = m.header.stamp ∧
    (Publish s m).1.height = m.height ∧
    (Publish s m).1.width = m.width ∧
    (Publish s m).1.encoding = m.encoding ∧
    (Publish s m).1.is_bigendian = m.is_bigendian ∧
    (Publish s m).1.step = m.step ∧
    (Publish s m).1.data = m.data :=
  ⟨rfl, rfl, rfl, rfl, rfl, rfl, rfl, rfl⟩

/-- C2: for `PublishCamera`, a successful `Grab` yields exactly one emission
and exactly one tick, the tick carrying the image stamp as left by the hook;
a failed `Grab` yields no emission and no tick (the frame is dropped
silently, no error reaches the caller). -/
theorem publishCamera_grab_outcome (s : CameraRosBase) (g : GrabHook)
    (t : Time) (img : Image) (ci : CameraInfo) (ok : Bool)
    (h : g { Image.fresh with header := ⟨s.frame_id, t⟩ }
           s.cinfo_mgr.getCameraInfo = (img, ci, ok)) :
    (ok = true →
      List.countP isPublish (PublishCamera s g t) = 1 ∧
      List.countP isTick (PublishCamera s g t) = 1 ∧
      Event.tick img.header.stamp ∈ PublishCamera s g t) ∧
    (ok = false →
      List.countP isPublish (PublishCamera s g t) = 0 ∧
      List.countP isTick (PublishCamera s g t) = 0) := by
  simp only [PublishCamera, h]
  cases ok <;>
    simp [isPublish, isTick, List.countP_cons, List.countP_nil]

/-- C2 witness: a hook that accepts the pre-stamped frame unchanged at
`t = 50` produces one emission and one tick at stamp 50. -/
theorem publishCamera_grab_outcome_witness :
    ((fun (i : Image) (c : CameraInfo) => (i, c, true))
        { Image.fresh with header := ⟨sampleState.frame_id, 50⟩ }
        sampleState.cinfo_mgr.getCameraInfo
      = ({ Image.fresh with header := ⟨sampleState.frame_id, 50⟩ },
         sampleState.cinfo_mgr.getCameraInfo, true)) ∧
    ((true = true →
      List.countP isPublish
        (PublishCamera sampleState (fun i c => (i, c, true)) 50) = 1 ∧
      List.countP isTick
        (PublishCamera sampleState (fun i c => (i, c, true)) 50) = 1 ∧
      Event.tick
          ({ Image.fresh with header := ⟨sampleState.frame_id, 50⟩ } : Image).header.stamp ∈
        PublishCamera sampleState (fun i c => (i, c, true)) 50) ∧
    (true = false →
      List.countP isPublish
        (PublishCamera sampleState (fun i c => (i, c, true)) 50) = 0 ∧
      List.countP isTick
        (PublishCamera sampleState (fun i c => (i, c, true)) 50) = 0)) :=
  ⟨rfl, publishCamera_grab_outcome sampleState (fun i c => (i, c, true)) 50
    { Image.fresh with header := ⟨sampleState.frame_id, 50⟩ }
    sampleState.cinfo_mgr.getCameraInfo true rfl⟩

/-- C4: `SetTopicDiagnosticParameters` removes the prior registration keyed
by the derived name before installing the fresh diagnostic; at most one
registration under that name exists afterwards, and at root scope the
derived name is exactly `"image_raw topic status"`. -/
theorem setTopicDiag_replaces_registration (s : CameraRosBase)
    (minF maxF w dmin dmax : ℚ)
    (h : s.diagnostic_updater.tasks.count (derivedRegName s.ns) ≤ 1) :
    (SetTopicDiagnosticParameters s minF maxF w dmin dmax).diagnostic_updater.tasks
      = s.diagnostic_updater.tasks.erase (derivedRegName s.ns)
          ++ [derivedRegName s.ns] ∧
    ((SetTopicDiagnosticParameters s minF maxF w dmin dmax).diagnostic_updater.tasks.count
      (derivedRegName s.ns) = 1) ∧
    (s.ns = "" → derivedRegName s.ns = "image_raw topic status") := by
  refine ⟨?_, ?_, ?_⟩
  · simp [SetTopicDiagnosticParameters, Updater.removeByName, Updater.add,
      derivedRegName]
  · have h1 : (s.diagnostic_updater.tasks.erase (derivedRegName s.ns)).count
        (derivedRegName s.ns) = s.diagnostic_updater.tasks.count (derivedRegName s.ns) - 1 :=
      List.count_erase_self _ _
    simp only [SetTopicDiagnosticParameters, Updater.removeByName, Updater.add,
      derivedRegName] at *
    rw [List.count_append, h1]
    simp
    omega
  · intro hn
    simp [derivedRegName, hn]

/-- C4 witness: on a state at root scope already holding one registration,
the call leaves exactly one registration under
`"image_raw topic status"`. -/
theorem setTopicDiag_replaces_registration_witness :
    (sampleState.diagnostic_updater.tasks.count (derivedRegName sampleState.ns) ≤ 1) ∧
    ((SetTopicDiagnosticParameters sampleState (9/2) (11/2) 5 (-(1/100)) (1/5)).diagnostic_updater.tasks
      = sampleState.diagnostic_updater.tasks.erase (derivedRegName sampleState.ns)
          ++ [derivedRegName sampleState.ns] ∧
    ((SetTopicDiagnosticParameters sampleState (9/2) (11/2) 5 (-(1/100)) (1/5)).diagnostic_updater.tasks.count
      (derivedRegName sampleState.ns) = 1) ∧
    (sampleState.ns = "" → derivedRegName sampleState.ns = "image_raw topic status")) :=
  ⟨by decide,
   setTopicDiag_replaces_registration sampleState (9/2) (11/2) 5 (-(1/100)) (1/5)
     (by decide)⟩

/-- C7: after construction, fps is 10.0 and the installed diagnostic window
is min_fps = 0.9·fps, max_fps = 1.1·fps, window 10 s, min_delay −0.01 s,
max_delay 0.1 s. -/
theorem ctor_default_band (store : ParamStore) (ns : String)
    (info : CameraInfo) :
    (mkCameraRosBase store ns info).1.fps = 10 ∧
    (mkCameraRosBase store ns info).1.min_fps
      = (mkCameraRosBase store ns info).1.fps * (9/10) ∧
    (mkCameraRosBase store ns info).1.max_fps
      = (mkCameraRosBase store ns info).1.fps * (11/10) ∧
    (mkCameraRosBase store ns info).1.min_fps = 9 ∧
    (mkCameraRosBase store ns info).1.max_fps = 11 ∧
    ∃ n, (mkCameraRosBase store ns info).1.topic_diagnostic
      = some ⟨n, 10, -(1/100), 1/10⟩ := by
  refine ⟨rfl, ?_, ?_, ?_, ?_, ⟨_, rfl⟩⟩ <;>
    norm_num [mkCameraRosBase, SetTopicDiagnosticParameters]

/-- C9: a required key (`camera_name`, `calib_url`) missing from the store
makes `getParam` log an error and return the empty default, and the
constructor still completes, storing the empty values. -/
theorem missing_required_param (store : ParamStore) (ns : String)
    (info : CameraInfo)
    (h1 : store.lookup "camera_name" = none)
    (h2 : store.lookup "calib_url" = none) :
    getParam store "camera_name" = ("", ["Cannot find parameter: camera_name"]) ∧
    getParam store "calib_url" = ("", ["Cannot find parameter: calib_url"]) ∧
    (mkCameraRosBase store ns info).1.cinfo_mgr.camera_name = "" ∧
    (mkCameraRosBase store ns info).1.cinfo_mgr.calib_url = "" ∧
    "Cannot find parameter: camera_name" ∈ (mkCameraRosBase store ns info).2 ∧
    "Cannot find parameter: calib_url" ∈ (mkCameraRosBase store ns info).2 ∧
    (mkCameraRosBase store ns info).1.fps = 10 := by
  simp [getParam, mkCameraRosBase, SetTopicDiagnosticParameters, h1, h2]

/-- A configuration store with no keys at all, for witnesses. -/
def emptyStore : ParamStore := ⟨fun _ => none⟩

/-- C9 witness: constructing against an empty store logs both errors and
stores empty name and URL. -/
theorem missing_required_param_witness :
    (emptyStore.lookup "camera_name" = none) ∧
    (emptyStore.lookup "calib_url" = none) ∧
    (getParam emptyStore "camera_name" = ("", ["Cannot find parameter: camera_name"]) ∧
    getParam emptyStore "calib_url" = ("", ["Cannot find parameter: calib_url"]) ∧
    (mkCameraRosBase emptyStore "/cam0" sampleInfo).1.cinfo_mgr.camera_name = "" ∧
    (mkCameraRosBase emptyStore "/cam0" sampleInfo).1.cinfo_mgr.calib_url = "" ∧
    "Cannot find parameter: camera_name" ∈ (mkCameraRosBase emptyStore "/cam0" sampleInfo).2 ∧
    "Cannot find parameter: calib_url" ∈ (mkCameraRosBase emptyStore "/cam0" sampleInfo).2 ∧
    (mkCameraRosBase emptyStore "/cam0" sampleInfo).1.fps = 10) :=
  ⟨rfl, rfl, missing_required_param emptyStore "/cam0" sampleInfo rfl rfl⟩

end CameraBase
